import Mathlib

/-!
# Verification of the Traceroute-Analyzer-MCP core against its specification

Shallow embedding of the repository's core operations:

* `src/utils.py` — `to_toon`, the compact pipe-delimited table encoder
  (pandas `to_csv(sep="|", index=False, na_rep="", lineterminator="\n")`
  followed by Python `str.strip()`);
* `src/analyzer.py` — `TracerouteAnalyzer._is_private_ip`,
  `get_enriched_path`, `generate_topology` (node labelling part) and
  `detect_anomalies`.

Python strings are modelled as `List Char`; nullable cells as `Option`;
pandas float values are modelled as rationals (`ℚ`).  Fallible fetches from
the database collaborator are modelled as `Except` values.
-/

/-- Python strings are modelled as lists of characters. -/
abbrev Str := List Char

/-- The double-quote character (written by codepoint to keep source scanning simple). -/
def quoteChar : Char := Char.ofNat 34

/-- The single-quote character. -/
def singleQuoteChar : Char := Char.ofNat 39

/-! ## The TOON encoder (`src/utils.py`, `to_toon`)

`to_toon` hands the formatted frame to `DataFrame.to_csv` with `sep="|"`,
`index=False`, `na_rep=""` and `lineterminator="\n"`.  `to_csv` uses the
standard `csv` minimal-quoting rule: a field is quoted iff it contains the
separator, the quote character, CR or LF; a quoted field doubles the inner
quote characters.  In addition the writer emits a record consisting of a
single empty field as a quoted empty string.  The result is then passed
through Python `str.strip()`.
-/

/-- Minimal-quoting test of the `csv` writer: the field is quoted iff it
contains the separator `|`, the quote character, LF or CR. -/
def needsQuote (s : Str) : Bool :=
  s.any (fun c => c = '|' || c = quoteChar || c = '\n' || c = '\r')

/-- Quote a CSV field: wrap in double quotes, doubling inner double quotes. -/
def csvQuote (s : Str) : Str :=
  quoteChar ::
    (s.flatMap (fun c => if c = quoteChar then [quoteChar, quoteChar] else [c]))
    ++ [quoteChar]

/-- Rendering of one non-null field by the `csv` writer with `QUOTE_MINIMAL`. -/
def renderField (s : Str) : Str :=
  if needsQuote s then csvQuote s else s

/-- Rendering of one (nullable) cell; `na_rep=""` turns a missing value into
the empty string, which is never quoted. -/
def renderCell (c : Option Str) : Str :=
  match c with
  | none => []
  | some s => renderField s

/-- One output record: the rendered fields joined by the `|` separator —
with the `csv` writer's record-level rule that a record consisting of a
single empty field is emitted CSV-quoted as `\x22\x22` (so that such a record
is distinguishable from a blank line); a record with no fields at all stays
empty. -/
def renderLine (cells : List Str) : Str :=
  if cells ≠ [] ∧ List.intercalate ['|'] cells = [] then csvQuote []
  else List.intercalate ['|'] cells

/-- pandas column dtypes that `to_toon` treats specially. -/
inductive Dtype
  | datetime
  | float
  | object
  deriving DecidableEq

/-- A DataFrame: column names, column dtypes and rows of nullable cells.
Cell contents are modelled by their text: a datetime value is represented by
its ISO-8601 text and a float value by its `%.4g` text, so the per-dtype
formatting passes below act on the nullability structure (which is what they
change observably for the encoding claims). -/
structure TTable where
  header : List Str
  dtypes : List Dtype
  rows : List (List (Option Str))
  deriving DecidableEq

/-- `to_toon`'s datetime pass: `x.isoformat() if pd.notnull(x) else ""`.
On the text model `isoformat` is the identity, and a null becomes the
(non-null) empty string. -/
def formatDatetimeCell (c : Option Str) : Option Str :=
  some (c.getD [])

/-- `to_toon`'s float pass: `f'\x7bx:.4g\x7d' if pd.notnull(x) else None`.
On the text model the `%.4g` formatting is the identity, and a null stays
`None` (later rendered by `na_rep=""`). -/
def formatFloatCell (c : Option Str) : Option Str :=
  c

/-- Apply a cell transformation to every column of dtype `d0`
(the `select_dtypes` loops of `to_toon`); the transformed columns become
plain `object` columns. -/
def applyToDtypeCols (d0 : Dtype) (f : Option Str → Option Str) (t : TTable) : TTable :=
  { header := t.header
    dtypes := t.dtypes.map (fun d => if d = d0 then Dtype.object else d)
    rows := t.rows.map (fun r => List.zipWith (fun d c => if d = d0 then f c else c) t.dtypes r) }

/-- Both formatting loops of `to_toon`, applied to the working copy. -/
def formatFrame (t : TTable) : TTable :=
  applyToDtypeCols Dtype.float formatFloatCell
    (applyToDtypeCols Dtype.datetime formatDatetimeCell t)

/-- The header line of `to_csv`: rendered column names joined by `|`. -/
def headerLine (t : TTable) : Str :=
  renderLine (t.header.map renderField)

/-- One data line of `to_csv`: rendered cells joined by `|`. -/
def rowLine (r : List (Option Str)) : Str :=
  renderLine (r.map renderCell)

/-- All lines emitted by `to_csv`: the header line, then one line per row. -/
def csvLines (t : TTable) : List Str :=
  headerLine t :: t.rows.map rowLine

/-- The raw `to_csv` text: every line is followed by the `"\n"` terminator. -/
def csvRaw (t : TTable) : Str :=
  (csvLines t).flatMap (fun l => l ++ ['\n'])

/-- Python `str.isspace` characters (the set stripped by `str.strip()`). -/
def isPyWs (c : Char) : Bool :=
  c.toNat ∈ ([9, 10, 11, 12, 13, 28, 29, 30, 31, 32, 133, 160, 0x1680,
    0x2000, 0x2001, 0x2002, 0x2003, 0x2004, 0x2005, 0x2006, 0x2007, 0x2008,
    0x2009, 0x200A, 0x2028, 0x2029, 0x202F, 0x205F, 0x3000] : List Nat)

/-- Python `str.lstrip()`. -/
def pyLStrip (s : Str) : Str := s.dropWhile isPyWs

/-- Python `str.rstrip()`. -/
def pyRStrip (s : Str) : Str := (s.reverse.dropWhile isPyWs).reverse

/-- Python `str.strip()`. -/
def pyStrip (s : Str) : Str := pyLStrip (pyRStrip s)

/-- Snapshot of the two DataFrame variables of `to_toon`'s body: the caller's
argument `df` and the working frame `df_out`. -/
structure ToonState where
  df : TTable
  df_out : TTable
  deriving DecidableEq

/-- Embedding of `to_toon`'s body with the frame variables made explicit:
`df_out = df.copy()` binds `df_out` to a fresh table equal to `df`; the two
formatting loops then reassign columns of `df_out` only; the result is the
stripped `to_csv` text of `df_out`.  The final state is returned so that
frame effects on the argument can be stated. -/
def to_toon_run (df : TTable) : Str × ToonState :=
  let s0 : ToonState := { df := df, df_out := df }
  let s1 : ToonState := { s0 with
    df_out := applyToDtypeCols Dtype.datetime formatDatetimeCell s0.df_out }
  let s2 : ToonState := { s1 with
    df_out := applyToDtypeCols Dtype.float formatFloatCell s1.df_out }
  (pyStrip (csvRaw s2.df_out), s2)

/-- Decimal digit value of a character. -/
def digitVal (c : Char) : Nat := c.toNat - 48

/-- Hexadecimal digit test (`0-9a-fA-F`). -/
def isHexDigitChar (c : Char) : Bool :=
  c.isDigit || (97 ≤ c.toNat && c.toNat ≤ 102) || (65 ≤ c.toNat && c.toNat ≤ 70)

/-- Hexadecimal digit value of a character. -/
def hexVal (c : Char) : Nat :=
  if c.isDigit then c.toNat - 48
  else if 97 ≤ c.toNat then c.toNat - 87
  else c.toNat - 55

/-- CPython `IPv4Address._parse_octet`: a dotted part must be a non-empty
run of at most three ASCII decimal digits, without leading zeros, of value
at most 255. -/
def parseOctet : Str → Option Nat
  | [] => none
  | c :: cs =>
    if ¬ (c :: cs).all Char.isDigit then none
    else if (c :: cs).length > 3 then none
    else if c = '0' ∧ cs ≠ [] then none
    else
      let v := (c :: cs).foldl (fun a d => a * 10 + digitVal d) 0
      if v > 255 then none else some v

/-- CPython `IPv4Address._ip_int_from_string`: exactly four dot-separated
octets. -/
def parseIPv4 (s : Str) : Option Nat :=
  match s.splitOn '.' with
  | [a, b, c, d] => do
      let x ← parseOctet a
      let y ← parseOctet b
      let z ← parseOctet c
      let w ← parseOctet d
      pure (((x * 256 + y) * 256 + z) * 256 + w)
  | _ => none

/-- CPython `IPv6Address._split_scope_id`: an optional `%scope` suffix; the
scope must be non-empty and must not itself contain `%`. -/
def splitScopeId (s : Str) : Option Str :=
  match s.splitOn '%' with
  | [a] => some a
  | [a, sc] => if sc = [] then none else some a
  | _ => none

/-- CPython `IPv6Address._parse_hextet`: at most four hex digits, non-empty. -/
def parseHextet (s : Str) : Option Nat :=
  if s = [] then none
  else if ¬ s.all isHexDigitChar then none
  else if s.length > 4 then none
  else some (s.foldl (fun a c => a * 16 + hexVal c) 0)

/-- Shape analysis of the colon-separated parts in CPython
`IPv6Address._ip_int_from_string`: locate the single `::`, validate leading
and trailing colons, and return `(parts_hi, parts_lo, parts_skipped)`. -/
def v6Shape (parts : List Str) : Option (Nat × Nat × Nat) :=
  let n := parts.length
  let interior := (parts.drop 1).dropLast
  if 2 ≤ interior.countP (fun p => decide (p = [])) then none
  else
    match interior.findIdx? (fun p => decide (p = [])) with
    | some j =>
        let skipIndex := j + 1
        let hi0 := skipIndex
        let lo0 := n - skipIndex - 1
        let hi := if parts.head? = some [] then hi0 - 1 else hi0
        if parts.head? = some [] ∧ hi ≠ 0 then none
        else
          let lo := if parts.getLast? = some [] then lo0 - 1 else lo0
          if parts.getLast? = some [] ∧ lo ≠ 0 then none
          else if 8 - (hi + lo) < 1 then none
          else some (hi, lo, 8 - (hi + lo))
    | none =>
        if n ≠ 8 then none
        else if parts.head? = some [] then none
        else if parts.getLast? = some [] then none
        else some (n, 0, 0)

/-- Assemble the 128-bit integer from the hextet parts before and after the
`::` gap (the two accumulation loops of `_ip_int_from_string`). -/
def v6Assemble (parts : List Str) (hi lo skipped : Nat) : Option Nat := do
  let hvals ← (parts.take hi).mapM parseHextet
  let lvals ← (parts.drop (parts.length - lo)).mapM parseHextet
  pure ((hvals.foldl (fun a v => a * 65536 + v) 0) * 65536 ^ (skipped + lo) +
        lvals.foldl (fun a v => a * 65536 + v) 0)

/-- CPython `IPv6Address._ip_int_from_string` (with the scope-id split of the
constructor): split on `:`, replace a trailing embedded IPv4 part by its two
hextets (rendered with `%x` as CPython does), then validate the shape and
accumulate. -/
def parseIPv6 (s : Str) : Option Nat :=
  match splitScopeId s with
  | none => none
  | some addr =>
    if addr = [] then none
    else
      let parts := addr.splitOn ':'
      if parts.length < 3 then none
      else
        let parts? : Option (List Str) :=
          match parts.getLast? with
          | some last =>
            if last.contains '.' then
              match parseIPv4 last with
              | none => none
              | some v4 =>
                  some (parts.dropLast ++
                    [Nat.toDigits 16 (v4 / 65536), Nat.toDigits 16 (v4 % 65536)])
            else some parts
          | none => some parts
        match parts? with
        | none => none
        | some parts =>
          if parts.length > 9 then none
          else
            match v6Shape parts with
            | none => none
            | some (hi, lo, skipped) => v6Assemble parts hi lo skipped

/-- A parsed IP address: the 32-bit or 128-bit integer value. -/
inductive IPAddr
  | v4 (n : Nat)
  | v6 (n : Nat)
  deriving DecidableEq

/-- CPython `ipaddress.ip_address`: try IPv4, then IPv6. -/
def ip_address_parse (s : Str) : Option IPAddr :=
  match parseIPv4 s with
  | some n => some (IPAddr.v4 n)
  | none => (parseIPv6 s).map IPAddr.v6

/-- Network membership for IPv4: the top `plen` bits agree with the base. -/
def inNet4 (addr base plen : Nat) : Bool :=
  addr / 2 ^ (32 - plen) = base / 2 ^ (32 - plen)

/-- Network membership for IPv6. -/
def inNet6 (addr base plen : Nat) : Bool :=
  addr / 2 ^ (128 - plen) = base / 2 ^ (128 - plen)

/-- CPython 3.12 `_IPv4Constants._private_networks`. -/
def v4PrivateNets : List (Nat × Nat) :=
  [(0x00000000, 8),    -- 0.0.0.0/8
   (0x0A000000, 8),    -- 10.0.0.0/8
   (0x7F000000, 8),    -- 127.0.0.0/8
   (0xA9FE0000, 16),   -- 169.254.0.0/16
   (0xAC100000, 12),   -- 172.16.0.0/12
   (0xC0000000, 29),   -- 192.0.0.0/29
   (0xC00000AA, 31),   -- 192.0.0.170/31
   (0xC0000200, 24),   -- 192.0.2.0/24
   (0xC0A80000, 16),   -- 192.168.0.0/16
   (0xC6120000, 15),   -- 198.18.0.0/15
   (0xC6336400, 24),   -- 198.51.100.0/24
   (0xCB007100, 24),   -- 203.0.113.0/24
   (0xF0000000, 4),    -- 240.0.0.0/4
   (0xFFFFFFFF, 32)]   -- 255.255.255.255/32

/-- CPython 3.12 `_IPv6Constants._private_networks`. -/
def v6PrivateNets : List (Nat × Nat) :=
  [(1, 128),                                        -- ::1/128
   (0, 128),                                        -- ::/128
   (0xFFFF00000000, 96),                            -- ::ffff:0:0/96
   (0x01000000000000000000000000000000, 64),        -- 100::/64
   (0x20010000000000000000000000000000, 23),        -- 2001::/23
   (0x20010002000000000000000000000000, 48),        -- 2001:2::/48
   (0x20010DB8000000000000000000000000, 32),        -- 2001:db8::/32
   (0x20010010000000000000000000000000, 28),        -- 2001:10::/28
   (0xFC000000000000000000000000000000, 7),         -- fc00::/7
   (0xFE800000000000000000000000000000, 10)]        -- fe80::/10

/-- CPython `is_private` for a parsed address. -/
def py_is_private : IPAddr → Bool
  | IPAddr.v4 n => v4PrivateNets.any (fun bp => inNet4 n bp.1 bp.2)
  | IPAddr.v6 n => v6PrivateNets.any (fun bp => inNet6 n bp.1 bp.2)

/-- `TracerouteAnalyzer._is_private_ip`: `ipaddress.ip_address(ip).is_private`,
with a parse failure (`ValueError`) caught and turned into `False`. -/
def is_private_ip (s : Str) : Bool :=
  match ip_address_parse s with
  | some a => py_is_private a
  | none => false

/-! ## The enrichment pipeline (`src/analyzer.py`, `get_enriched_path`)

The SQL result is a relation of hop rows joined (LEFT JOIN) with geolocation
columns, ordered by `ttl` ascending.  RTT values are modelled as rationals.
The columnar operations `diff().round(2)` and `shift()` are embedded by
carrying the previous row while walking the relation: `diff` is `NaN` at the
first row and whenever the current or previous value is `NaN`, and `shift`
yields the previous row's value (`NaN` at the first row).
-/

/-- One row of the `get_enriched_path` query result. -/
structure HopRow where
  ttl : Int
  ip_address : Str
  rtt_ms : Option ℚ
  city : Option Str
  region_name : Option Str
  country_name : Option Str
  latitude : Option ℚ
  longitude : Option ℚ
  asn_name : Option Str
  isp : Option Str
  asn_type : Option Str
  deriving DecidableEq

/-- One row of the frame returned by `get_enriched_path` (after column
selection and renaming). -/
structure EnrichedHop where
  ttl : Int
  ip_address : Str
  rtt_ms : Option ℚ
  is_private : Bool
  city : Option Str
  country : Option Str
  isp : Option Str
  asn : Option Str
  latitude : Option ℚ
  longitude : Option ℚ
  rtt_spike_ms : Option ℚ
  geographic_jump : Str
  deriving DecidableEq

/-- Round-half-to-even to an integer (the rounding used by
`Series.round`, i.e. IEEE/numpy banker's rounding, modelled on ℚ). -/
def roundHalfEven (q : ℚ) : ℤ :=
  let f := Int.floor q
  let r := q - f
  if r < 1/2 then f
  else if 1/2 < r then f + 1
  else if f % 2 = 0 then f else f + 1

/-- `round(x, 2)` on the rational model. -/
def round2 (q : ℚ) : ℚ := (roundHalfEven (q * 100) : ℚ) / 100

/-- One step of `df['rtt_ms'].diff().round(2)`: defined only when both the
previous and the current value are present. -/
def spikeOf : Option ℚ → Option ℚ → Option ℚ
  | some p, some c => some (round2 (c - p))
  | _, _ => none

/-- `calculate_jump` from `get_enriched_path`: non-empty only when the
current and the shifted (previous) country are both present and differ. -/
def calcJump (prevCountry currCountry : Option Str) : Str :=
  match currCountry, prevCountry with
  | some c, some p => if c ≠ p then p ++ (" -> ".data) ++ c else []
  | _, _ => []

/-- Build one output row from the current row and the previous row (if any):
private-IP check, RTT spike against the previous row, geographic jump
against the previous row, column selection and renaming. -/
def enrichRow (prev : Option HopRow) (r : HopRow) : EnrichedHop :=
  { ttl := r.ttl
    ip_address := r.ip_address
    rtt_ms := r.rtt_ms
    is_private := is_private_ip r.ip_address
    city := r.city
    country := r.country_name
    isp := r.isp
    asn := r.asn_name
    latitude := r.latitude
    longitude := r.longitude
    rtt_spike_ms := spikeOf (prev.bind (fun p => p.rtt_ms)) r.rtt_ms
    geographic_jump := calcJump (prev.bind (fun p => p.country_name)) r.country_name }

/-- Walk the relation carrying the previous row (the embedding of the
columnar `diff`/`shift` derivations). -/
def enrichHops : Option HopRow → List HopRow → List EnrichedHop
  | _, [] => []
  | prev, r :: rs => enrichRow prev r :: enrichHops (some r) rs

/-- `get_enriched_path`: on a database error the result is an empty frame and
the error is logged (second component); on success the enriched path (an
empty input relation yields an empty frame either way). -/
def get_enriched_path (fetched : Except Str (List HopRow)) :
    List EnrichedHop × List Str :=
  match fetched with
  | Except.error e =>
      ([], [("Database error in get_enriched_path: ".data) ++ e])
  | Except.ok rows => (enrichHops none rows, [])

/-- The previous row at position `i` of a relation (`none` at position 0). -/
def prevRowAt (rows : List HopRow) : Nat → Option HopRow
  | 0 => none
  | j + 1 => rows[j]?

/-! ## The topology renderer (`src/analyzer.py`, `generate_topology`)

Only the node-declaration part is embedded: the claims bear on node labels.
(The edge annotations interpolate a raw float with `str`, which the text
model does not interpret.)  Note the Python literals `"\\n(Private)"` and
`f"...\\n..."` contain a literal backslash-n (a Mermaid line break), not a
newline character.
-/

/-- Node label choice of `generate_topology`: private marker first, else the
geo label when the city or the country is non-null, else the raw address;
finally every double quote is replaced by a single quote. -/
def nodeLabel (h : EnrichedHop) : Str :=
  let label := h.ip_address
  let label :=
    if h.is_private then label ++ ("\\n(Private)".data)
    else if h.city.isSome || h.country.isSome then
      (h.city.getD ("Unknown City".data)) ++ (", ".data) ++
      (h.country.getD ("Unknown Country".data)) ++ ("\\n".data) ++
      (h.isp.getD ("Unknown ISP".data))
    else label
  label.map (fun c => if c = quoteChar then singleQuoteChar else c)

/-- Decimal rendering of a `Nat`. -/
def natToStr (n : Nat) : Str := Nat.toDigits 10 n

/-- Decimal rendering of an `Int` (Python `int` interpolation). -/
def intToStr : Int → Str
  | Int.ofNat n => natToStr n
  | Int.negSucc n => '-' :: natToStr (n + 1)

/-- `node_id = f"hop_\x7bint(hop['ttl'])\x7d"`. -/
def nodeId (h : EnrichedHop) : Str := ("hop_".data) ++ intToStr h.ttl

/-- One node declaration line: `    hop_i["label"]`. -/
def nodeLine (h : EnrichedHop) : Str :=
  ("    ".data) ++ nodeId h ++ ('[' :: [quoteChar]) ++ nodeLabel h ++
    (quoteChar :: [']'])

/-- The node declarations emitted by `generate_topology` for a path. -/
def topologyNodeLines (path : List EnrichedHop) : List Str :=
  path.map nodeLine

/-! ## The anomaly detector (`src/analyzer.py`, `detect_anomalies`)

The three threat flags arrive from the relation in loosely typed form;
`PyVal` models the encodings named by the data contract (boolean, integer,
string, or SQL NULL), and `pyEq` models Python `==` on them (booleans compare
equal to the integers 0/1). -/

/-- A loosely typed relation value. -/
inductive PyVal
  | null
  | pybool (b : Bool)
  | pyint (n : Int)
  | pystr (s : Str)
  deriving DecidableEq

/-- Python `==` on `PyVal` (list membership `x in [...]` uses it). -/
def pyEq : PyVal → PyVal → Bool
  | PyVal.null, PyVal.null => true
  | PyVal.pybool a, PyVal.pybool b => a = b
  | PyVal.pybool a, PyVal.pyint n => (if a then (1 : Int) else 0) = n
  | PyVal.pyint n, PyVal.pybool a => n = (if a then (1 : Int) else 0)
  | PyVal.pyint m, PyVal.pyint n => m = n
  | PyVal.pystr s, PyVal.pystr t => s = t
  | _, _ => false

/-- The truthiness test of `get_reasons`:
`row.get(flag) in [True, 1, 'true', 'True']`. -/
def flagTruthy (v : PyVal) : Bool :=
  pyEq v (PyVal.pybool true) || pyEq v (PyVal.pyint 1) ||
  pyEq v (PyVal.pystr ("true".data)) || pyEq v (PyVal.pystr ("True".data))

/-- One row of the `detect_anomalies` query result. -/
structure ThreatRow where
  ttl : Int
  ip_address : Str
  asn_name : Option Str
  asn_type : Option Str
  threat_is_datacenter : PyVal
  threat_is_tor : PyVal
  threat_is_proxy : PyVal
  deriving DecidableEq

/-- The fixed reason string for a truthy datacenter flag. -/
def reasonDatacenter : Str :=
  "High Probability of Datacenter/Proxy (threat_is_datacenter=True)".data

/-- The fixed reason string for a truthy Tor flag. -/
def reasonTor : Str := "Known Tor Exit Node (threat_is_tor=True)".data

/-- The fixed reason string for a truthy proxy flag. -/
def reasonProxy : Str := "Known Public Proxy (threat_is_proxy=True)".data

/-- The reason list built by `get_reasons`, in source order:
datacenter, then Tor, then proxy. -/
def reasonsList (r : ThreatRow) : List Str :=
  (if flagTruthy r.threat_is_datacenter then [reasonDatacenter] else []) ++
  (if flagTruthy r.threat_is_tor then [reasonTor] else []) ++
  (if flagTruthy r.threat_is_proxy then [reasonProxy] else [])

/-- `get_reasons`: the reasons joined with `"; "`. -/
def get_reasons (r : ThreatRow) : Str :=
  List.intercalate ("; ".data) (reasonsList r)

/-- One row of the frame returned by `detect_anomalies` (after column
selection and renaming). -/
structure AnomalyRow where
  ttl : Int
  ip_address : Str
  asn : Option Str
  reasons : Str
  deriving DecidableEq

/-- Projection of a kept row to the output columns. -/
def mkAnomaly (r : ThreatRow) : AnomalyRow :=
  { ttl := r.ttl, ip_address := r.ip_address, asn := r.asn_name,
    reasons := get_reasons r }

/-- `detect_anomalies`: on a database error an empty frame plus a log entry;
otherwise the rows whose reason string is non-empty, in relation order,
projected to the output columns. -/
def detect_anomalies (fetched : Except Str (List ThreatRow)) :
    List AnomalyRow × List Str :=
  match fetched with
  | Except.error e =>
      ([], [("Database error in detect_anomalies: ".data) ++ e])
  | Except.ok rows =>
      ((rows.filter (fun r => get_reasons r ≠ [])).map mkAnomaly, [])

/-! ## Claim-side definitions

The following definitions follow the wording of the specification claims
(not the source); they exist to be compared with the source-side
definitions above. -/

/-- Definition following the claim's words (C3): the private/non-routable
ranges named by the claim — RFC1918, loopback, link-local, unique-local and
carrier-grade NAT (100.64.0.0/10). -/
def claimPrivateRanges : IPAddr → Bool
  | IPAddr.v4 n =>
      inNet4 n 0x0A000000 8 || inNet4 n 0xAC100000 12 || inNet4 n 0xC0A80000 16 ||
      inNet4 n 0x7F000000 8 || inNet4 n 0xA9FE0000 16 || inNet4 n 0x64400000 10
  | IPAddr.v6 n =>
      inNet6 n 1 128 || inNet6 n 0xFE800000000000000000000000000000 10 ||
      inNet6 n 0xFC000000000000000000000000000000 7

/-- Definition following the claim's words (C4): geo metadata is present when
some geolocation-derived field of the enriched hop is known. -/
def specGeoPresent (h : EnrichedHop) : Bool :=
  h.city.isSome || h.country.isSome || h.isp.isSome || h.asn.isSome ||
  h.latitude.isSome || h.longitude.isSome

/-- Definition following the claim's words (C4): label priority keyed on geo
presence, with the double-quote replacement. -/
def specNodeLabel (h : EnrichedHop) : Str :=
  (if h.is_private then h.ip_address ++ ("\\n(Private)".data)
   else if specGeoPresent h then
     (h.city.getD ("Unknown City".data)) ++ (", ".data) ++
     (h.country.getD ("Unknown Country".data)) ++ ("\\n".data) ++
     (h.isp.getD ("Unknown ISP".data))
   else h.ip_address).map (fun c => if c = quoteChar then singleQuoteChar else c)

/-- Definition following the claim's words (C5): the flag value equals the
boolean true, the integer 1, or one of the strings "true"/"True". -/
def claimTruthy (v : PyVal) : Bool :=
  v = PyVal.pybool true || v = PyVal.pyint 1 ||
  v = PyVal.pystr ("true".data) || v = PyVal.pystr ("True".data)

/-! ## Claims about the classifier, the detector, the renderer and the
error paths -/

/-- C3, counterexample: `100.64.0.1` is a carrier-grade-NAT address — it
parses, and it lies in the claim's private set — yet `_is_private_ip`
returns `False`, because CPython's `is_private` tables do not include
100.64.0.0/10.  The claim's "if and only if" therefore fails at this
input. -/
theorem c3_counterexample_cgnat :
    ip_address_parse ("100.64.0.1".data) = some (IPAddr.v4 0x64400001) ∧
    claimPrivateRanges (IPAddr.v4 0x64400001) = true ∧
    is_private_ip ("100.64.0.1".data) = false := by decide

/-- C3 (amended): `_is_private_ip` returns true iff the string parses as an
IPv4/IPv6 literal whose value lies in CPython's `_private_networks` tables
(which cover RFC1918, loopback, link-local and unique-local, but not
carrier-grade NAT); it returns false on every unparseable or public string,
and the claim's concrete examples behave as stated. -/
theorem c3_classifier_iff_python_private :
    (∀ s : Str, is_private_ip s = true ↔
      ∃ a, ip_address_parse s = some a ∧ py_is_private a = true) ∧
    is_private_ip ("127.0.0.1".data) = true ∧
    is_private_ip ("10.0.0.5".data) = true ∧
    is_private_ip ("192.168.1.1".data) = true ∧
    is_private_ip ("fe80::1".data) = true ∧
    is_private_ip ("8.8.8.8".data) = false ∧
    is_private_ip ("1.1.1.1".data) = false ∧
    is_private_ip ("not-an-ip".data) = false := by
  refine ⟨?_, by decide, by decide, by decide, by decide, by decide, by decide, by decide⟩
  intro s
  unfold is_private_ip
  cases h : ip_address_parse s with
  | none => simp
  | some a => simp

/-- C4, counterexample: a hop whose only known geolocation field is the ISP.
The claim's priority rule (geo metadata present) would produce the
`Unknown City, Unknown Country` label, but `generate_topology` tests only
the city and the country, so the node gets the raw address label. -/
theorem c4_counterexample_isp_only_hop :
    specGeoPresent
      { ttl := 5, ip_address := "8.8.4.4".data, rtt_ms := none,
        is_private := false, city := none, country := none,
        isp := some ("ExampleNet".data), asn := none, latitude := none,
        longitude := none, rtt_spike_ms := none, geographic_jump := [] } = true ∧
    specNodeLabel
      { ttl := 5, ip_address := "8.8.4.4".data, rtt_ms := none,
        is_private := false, city := none, country := none,
        isp := some ("ExampleNet".data), asn := none, latitude := none,
        longitude := none, rtt_spike_ms := none, geographic_jump := [] } =
      ("Unknown City, Unknown Country\\nExampleNet".data) ∧
    nodeLabel
      { ttl := 5, ip_address := "8.8.4.4".data, rtt_ms := none,
        is_private := false, city := none, country := none,
        isp := some ("ExampleNet".data), asn := none, latitude := none,
        longitude := none, rtt_spike_ms := none, geographic_jump := [] } =
      ("8.8.4.4".data) := by decide

/-- C4 (amended): the node label follows the priority — private marker
first; else the `city, country \n isp` form when the city or the country is
known (the code's geo-presence test); else the raw address — and every
double-quote character is replaced by a single quote, so no double quote
survives in any emitted label. -/
theorem c4_node_label_priority :
    (∀ h : EnrichedHop, nodeLabel h =
      (if h.is_private then h.ip_address ++ ("\\n(Private)".data)
       else if h.city.isSome || h.country.isSome then
         (h.city.getD ("Unknown City".data)) ++ (", ".data) ++
         (h.country.getD ("Unknown Country".data)) ++ ("\\n".data) ++
         (h.isp.getD ("Unknown ISP".data))
       else h.ip_address).map
        (fun c => if c = quoteChar then singleQuoteChar else c)) ∧
    (∀ h : EnrichedHop, quoteChar ∉ nodeLabel h) := by
  constructor
  · intro h; rfl
  · intro h hq
    unfold nodeLabel at hq
    rcases List.mem_map.mp hq with ⟨c, _, hc⟩
    by_cases h34 : c = quoteChar
    · rw [if_pos h34] at hc
      exact absurd hc (by decide)
    · rw [if_neg h34] at hc
      exact h34 hc

/-- The reason string is non-empty exactly when some threat flag is truthy. -/
theorem get_reasons_ne_nil (r : ThreatRow) :
    get_reasons r ≠ [] ↔
      (flagTruthy r.threat_is_datacenter || flagTruthy r.threat_is_tor ||
       flagTruthy r.threat_is_proxy) = true := by
  unfold get_reasons reasonsList
  cases hd : flagTruthy r.threat_is_datacenter <;>
    cases ht : flagTruthy r.threat_is_tor <;>
      cases hp : flagTruthy r.threat_is_proxy <;> simp <;> decide

/-- The source truthiness test agrees with the claim's four-value set. -/
theorem flagTruthy_eq_claimTruthy (v : PyVal) : flagTruthy v = claimTruthy v := by
  cases v with
  | null => rfl
  | pybool b => cases b <;> decide
  | pyint n => simp [flagTruthy, claimTruthy, pyEq, eq_comm]
  | pystr s => simp [flagTruthy, claimTruthy, pyEq]

/-- C5: a threat row is kept iff one of the three flags coerces to true
under the set containing the boolean true, the integer 1 and the strings
"true"/"True"; everything else (null, 0, "False", ...) is falsy, and a row
whose only non-null flag is `isProxy="False"` is excluded. -/
theorem c5_anomaly_membership :
    (∀ v : PyVal, flagTruthy v = claimTruthy v) ∧
    (∀ rows : List ThreatRow, (detect_anomalies (Except.ok rows)).1 =
      (rows.filter (fun r => claimTruthy r.threat_is_datacenter ||
        claimTruthy r.threat_is_tor || claimTruthy r.threat_is_proxy)).map
        mkAnomaly) ∧
    (detect_anomalies (Except.ok
      [{ ttl := 3, ip_address := "9.9.9.9".data, asn_name := none,
         asn_type := none, threat_is_datacenter := PyVal.null,
         threat_is_tor := PyVal.null,
         threat_is_proxy := PyVal.pystr ("False".data) }])).1 = [] := by
  refine ⟨flagTruthy_eq_claimTruthy, ?_, by decide⟩
  intro rows
  show (rows.filter (fun r => decide (get_reasons r ≠ []))).map mkAnomaly = _
  congr 1
  apply List.filter_congr
  intro r _
  simp only [← flagTruthy_eq_claimTruthy]
  have h := get_reasons_ne_nil r
  cases hb : (flagTruthy r.threat_is_datacenter || flagTruthy r.threat_is_tor ||
      flagTruthy r.threat_is_proxy) with
  | false =>
    rw [hb] at h
    simp only [Bool.false_eq_true, iff_false, not_not] at h
    simp [h]
  | true =>
    rw [hb] at h
    simp [h.mpr rfl]

/-- C9: every emitted reason list is a sublist of the fixed ordered list
(datacenter, then Tor, then proxy — each a fixed descriptive string), and
the emitted anomaly rows form a sublist of the input rows' projections, so
input relative order is preserved. -/
theorem c9_reason_and_row_order :
    (∀ r : ThreatRow, List.Sublist (reasonsList r)
      [reasonDatacenter, reasonTor, reasonProxy]) ∧
    (∀ rows : List ThreatRow, List.Sublist (detect_anomalies (Except.ok rows)).1
      (rows.map mkAnomaly)) := by
  constructor
  · intro r
    unfold reasonsList
    show List.Sublist _ (([reasonDatacenter] ++ [reasonTor]) ++ [reasonProxy])
    refine List.Sublist.append (List.Sublist.append ?_ ?_) ?_ <;>
      split <;> simp
  · intro rows
    exact List.Sublist.map mkAnomaly (List.filter_sublist rows)

/-- C7: when the upstream data-source query fails, `get_enriched_path`
returns an empty path and `detect_anomalies` an empty sequence; each logs
the failure, and (the embedding being total) no exception reaches the
caller. -/
theorem c7_db_failure_degrades (e : Str) :
    get_enriched_path (Except.error e) =
      ([], [("Database error in get_enriched_path: ".data) ++ e]) ∧
    detect_anomalies (Except.error e) =
      ([], [("Database error in detect_anomalies: ".data) ++ e]) :=
  ⟨rfl, rfl⟩

/-- C10: `to_toon` never mutates its argument: the body formats a copy
(`df_out = df.copy()`), the two dtype loops reassign columns of the copy
only, and the output is the stripped CSV text of the formatted copy, so the
caller's table is unchanged after the call. -/
theorem c10_to_toon_preserves_argument (df : TTable) :
    (to_toon_run df).2.df = df ∧
    (to_toon_run df).1 = pyStrip (csvRaw (formatFrame df)) :=
  ⟨rfl, rfl⟩

/-! ## Claims about the enrichment derivations -/

/-- Indexing the enriched path: the hop at position `i` is the enrichment of
the input row at position `i` against the carried previous row. -/
theorem enrichHops_getElem? (prev : Option HopRow) (rows : List HopRow) (i : Nat) :
    (enrichHops prev rows)[i]? =
      (rows[i]?).map (enrichRow (match i with | 0 => prev | j + 1 => rows[j]?)) := by
  induction rows generalizing prev i with
  | nil => cases i <;> simp [enrichHops]
  | cons r rs ih =>
    cases i with
    | zero => simp [enrichHops]
    | succ j =>
      simp only [enrichHops, List.getElem?_cons_succ]
      rw [ih (some r) j]
      cases j with
      | zero => simp
      | succ k => simp

/-- Indexing the enriched path from the start, phrased with `prevRowAt`. -/
theorem enrichHops_getElem_prevRowAt (rows : List HopRow) (i : Nat) :
    (enrichHops none rows)[i]? = (rows[i]?).map (enrichRow (prevRowAt rows i)) := by
  rw [enrichHops_getElem? none rows i]
  cases i <;> rfl

/-- C2: for a ttl-sorted hop relation, the enriched hop at position `i`
carries `rtt_spike_ms = round(rtt_ms[i] - rtt_ms[i-1], 2)` exactly when both
the current and the previous RTT are known, and no spike value otherwise
(in particular none at position 0); a missing RTT is never treated as 0. -/
theorem c2_rtt_spike (rows : List HopRow)
    (hsorted : rows.Pairwise (fun a b => a.ttl ≤ b.ttl))
    (i : Nat) (e : EnrichedHop)
    (he : (get_enriched_path (Except.ok rows)).1[i]? = some e) :
    e.rtt_spike_ms =
      match (prevRowAt rows i).bind (fun p => p.rtt_ms),
            (rows[i]?).bind (fun p => p.rtt_ms) with
      | some a, some b => some (round2 (b - a))
      | _, _ => none := by
  have h0 : (rows[i]?).map (enrichRow (prevRowAt rows i)) = some e := by
    rw [← enrichHops_getElem_prevRowAt rows i]; exact he
  rcases hmap : rows[i]? with _ | r
  · rw [hmap] at h0; exact Option.noConfusion h0
  · rw [hmap] at h0
    have he' : e = enrichRow (prevRowAt rows i) r := (Option.some.inj h0).symm
    subst he'
    have hg : (enrichRow (prevRowAt rows i) r).rtt_spike_ms =
        spikeOf ((prevRowAt rows i).bind (fun p => p.rtt_ms)) r.rtt_ms := rfl
    rw [hg, show ((some r).bind (fun p => p.rtt_ms)) = r.rtt_ms from rfl]
    generalize ((prevRowAt rows i).bind (fun p => p.rtt_ms)) = prevRtt
    rcases prevRtt with _ | a <;> rcases r.rtt_ms with _ | b <;> simp [spikeOf]

/-- C6: for a ttl-sorted hop relation, the enriched hop at position `i`
carries a `geographic_jump` that is non-empty exactly when the previous and
the current country are both known and differ, in which case it is the
string `"prev -> curr"`. -/
theorem c6_geographic_jump (rows : List HopRow)
    (hsorted : rows.Pairwise (fun a b => a.ttl ≤ b.ttl))
    (i : Nat) (e : EnrichedHop)
    (he : (get_enriched_path (Except.ok rows)).1[i]? = some e) :
    e.geographic_jump =
      (match (rows[i]?).bind (fun p => p.country_name),
             (prevRowAt rows i).bind (fun p => p.country_name) with
       | some c, some p => if c ≠ p then p ++ (" -> ".data) ++ c else []
       | _, _ => []) ∧
    (e.geographic_jump ≠ [] ↔
      (((prevRowAt rows i).bind (fun p => p.country_name)).isSome = true ∧
       ((rows[i]?).bind (fun p => p.country_name)).isSome = true ∧
       (prevRowAt rows i).bind (fun p => p.country_name) ≠
         (rows[i]?).bind (fun p => p.country_name))) := by
  have h0 : (rows[i]?).map (enrichRow (prevRowAt rows i)) = some e := by
    rw [← enrichHops_getElem_prevRowAt rows i]; exact he
  rcases hmap : rows[i]? with _ | r
  · rw [hmap] at h0; exact Option.noConfusion h0
  · rw [hmap] at h0
    have he' : e = enrichRow (prevRowAt rows i) r := (Option.some.inj h0).symm
    subst he'
    have hg : (enrichRow (prevRowAt rows i) r).geographic_jump =
        calcJump ((prevRowAt rows i).bind (fun p => p.country_name)) r.country_name := rfl
    rw [hg, show ((some r).bind (fun p => p.country_name)) = r.country_name from rfl]
    generalize ((prevRowAt rows i).bind (fun p => p.country_name)) = prevC
    rcases prevC with _ | p <;> rcases r.country_name with _ | c
    · simp [calcJump]
    · simp [calcJump]
    · simp [calcJump]
    · by_cases hne : c = p
      · subst hne; simp [calcJump]
      · constructor
        · simp [calcJump, hne]
        · simp [calcJump, hne, List.append_eq_nil]
          intro hpc
          exact hne hpc.symm

/-- A concrete two-hop relation used by the witnesses below. -/
def wHop1 : HopRow :=
  { ttl := 1, ip_address := "10.0.0.1".data, rtt_ms := some 10,
    city := none, region_name := none, country_name := some ("Brazil".data),
    latitude := none, longitude := none, asn_name := none, isp := none,
    asn_type := none }

/-- Second hop of the concrete relation. -/
def wHop2 : HopRow :=
  { ttl := 2, ip_address := "8.8.8.8".data, rtt_ms := some (1234/100),
    city := none, region_name := none, country_name := some ("USA".data),
    latitude := none, longitude := none, asn_name := none, isp := none,
    asn_type := none }

/-- The concrete relation. -/
def wRows : List HopRow := [wHop1, wHop2]

/-- Witness for C2 at the concrete two-hop relation, position 1. -/
theorem c2_rtt_spike_witness :
    (enrichRow (some wHop1) wHop2).rtt_spike_ms =
      match (prevRowAt wRows 1).bind (fun p => p.rtt_ms),
            (wRows[1]?).bind (fun p => p.rtt_ms) with
      | some a, some b => some (round2 (b - a))
      | _, _ => none :=
  c2_rtt_spike wRows
    (by refine List.Pairwise.cons ?_ (List.pairwise_singleton _ _)
        intro b hb
        rw [List.mem_singleton.mp hb]
        decide)
    1 (enrichRow (some wHop1) wHop2) rfl

/-- Witness for C6 at the concrete two-hop relation, position 1. -/
theorem c6_geographic_jump_witness :
    ((enrichRow (some wHop1) wHop2).geographic_jump =
      (match (wRows[1]?).bind (fun p => p.country_name),
             (prevRowAt wRows 1).bind (fun p => p.country_name) with
       | some c, some p => if c ≠ p then p ++ (" -> ".data) ++ c else []
       | _, _ => [])) ∧
    ((enrichRow (some wHop1) wHop2).geographic_jump ≠ [] ↔
      (((prevRowAt wRows 1).bind (fun p => p.country_name)).isSome = true ∧
       ((wRows[1]?).bind (fun p => p.country_name)).isSome = true ∧
       (prevRowAt wRows 1).bind (fun p => p.country_name) ≠
         (wRows[1]?).bind (fun p => p.country_name))) :=
  c6_geographic_jump wRows
    (by refine List.Pairwise.cons ?_ (List.pairwise_singleton _ _)
        intro b hb
        rw [List.mem_singleton.mp hb]
        decide)
    1 (enrichRow (some wHop1) wHop2) rfl

/-! ## Claims about the TOON encoding -/

